import Mathlib

/-
Verification of the G6 context-menu widget
(src/packages/g6/src/plugin/widget/menu/index.ts).

The widget is embedded shallowly: DOM state and listener registrations are
recorded explicitly in a `MenuState`, and each synchronous segment of the
source (the show handler up to its `await`, its resumption after the
`await`, `onMenuHide`, `removeMenuEventListener`, `destroy`) becomes a pure
state transformer.  An execution of the widget is a list of `MenuOp`
operations applied in order; promise resolutions are explicit operations so
that the interleavings the event loop allows are all representable.
-/

namespace G6

/-- A piece of menu content: a raw markup string (the `isString` branch) or
a DOM element, represented by its serialized `outerHTML` (the
`instanceof HTMLElement` branch). -/
inductive Content where
  | str : String → Content
  | dom : String → Content
  deriving DecidableEq, Repr

/-- What is assigned to `menuDom.innerHTML` when this content is injected:
the string itself, or the element's `outerHTML` (source lines 184-189 and
205-209). -/
def Content.render : Content → String
  | .str s => s
  | .dom h => h

/-- Result of a call to `options.getContent(evt)`: a synchronous value, or a
promise carrying the content it will eventually resolve to. -/
inductive ContentResult where
  | sync : Content → ContentResult
  | promise : Content → ContentResult
  deriving DecidableEq, Repr

/-- The fields of an `IG6GraphEvent` that `onMenuShow` reads.  `itemId` and
`itemType` are `none` when the corresponding field is absent (falsy in the
source). -/
structure GEvent where
  itemId : Option String
  itemType : Option String
  viewportX : Int
  viewportY : Int
  deriving DecidableEq, Repr

/-- The merged `MenuConfig` options that `onMenuShow`, `onMenuHide` and
`destroy` read.  `hasHandleMenuClick` records whether `handleMenuClick` is
configured; `onHide` is the configured hide callback (the source declares it
and defaults it but, as proved below, never calls it). -/
structure MenuConfig where
  offsetX : Int
  offsetY : Int
  itemTypes : List String
  shouldBegin : GEvent → Bool
  triggerIsClick : Bool
  hasHandleMenuClick : Bool
  loadingContent : Content
  getContent : GEvent → ContentResult
  onHide : Unit → Bool

/-- The host-graph quantities `onMenuShow` reads: `graph.getSize()` is
`(width, height)`, `graph.container.offsetTop/offsetLeft` are
`graphTop/graphLeft`, and `menuDom.getBoundingClientRect()` gives
`menuWidth/menuHeight`. -/
structure GraphEnv where
  width : Int
  height : Int
  graphTop : Int
  graphLeft : Int
  menuWidth : Int
  menuHeight : Int
  deriving DecidableEq, Repr

/-- The mutable state of a `Menu` instance after `init`: the overlay DOM
node (visibility, injected markup, css position, membership in its
container), the instance fields `currentTarget`, `asyncMenu`,
`handleMenuClickWrapper` and `handler`, and the listener registrations on
the overlay node (`menuListeners`) and on `document.body` (`docListeners`),
recorded as lists of distinct tokens handed out from `nextId`.  The three
counters record how often the content provider was called, how often one of
those calls was awaited (source line 199), and how often the configured
`onHide` callback was called. -/
structure MenuState where
  visible : Bool
  innerHTML : String
  posX : Int
  posY : Int
  currentTarget : Option String
  asyncMenu : Option Content
  handleMenuClickWrapper : Option Nat
  handler : Option Nat
  menuListeners : List Nat
  docListeners : List Nat
  nextId : Nat
  inContainer : Bool
  getContentCalls : Nat
  awaitedCalls : Nat
  onHideCbCalls : Nat
  deriving DecidableEq, Repr

/-- The state right after `init(graph)` (source lines 114-137): overlay
created hidden and appended to the container, all instance fields still
unset. -/
def initState : MenuState :=
  { visible := false
    innerHTML := ""
    posX := 0
    posY := 0
    currentTarget := none
    asyncMenu := none
    handleMenuClickWrapper := none
    handler := none
    menuListeners := []
    docListeners := []
    nextId := 0
    inContainer := true
    getContentCalls := 0
    awaitedCalls := 0
    onHideCbCalls := 0 }

/-- `removeMenuEventListener` (source lines 234-246): if
`handleMenuClickWrapper` is set, detach it from the overlay and null it;
then, if `handler` is set, detach it from `document.body`.  Exactly as in
the source, `handler` itself is not nulled. -/
def removeMenuEventListener (st : MenuState) : MenuState :=
  let st1 :=
    match st.handleMenuClickWrapper with
    | some w =>
      { st with menuListeners := st.menuListeners.erase w, handleMenuClickWrapper := none }
    | none => st
  match st1.handler with
  | some h => { st1 with docListeners := st1.docListeners.erase h }
  | none => st1

/-- `onMenuHide` (source lines 248-254): hide the overlay and detach the
listeners.  The `if (menuDom)` guard always holds after `init`, which is
where all states modelled here start. -/
def onMenuHide (st : MenuState) : MenuState :=
  removeMenuEventListener { st with visible := false }

/-- The item-type filter of `onMenuShow` (source lines 143-154): with no
`itemId`, reject unless the allowed types contain the string canvas; with an
`itemId` and an `itemType`, reject unless the allowed types contain that
type; with an `itemId` but no `itemType`, never reject. -/
def itemFilterRejects (cfg : MenuConfig) (e : GEvent) : Bool :=
  match e.itemId with
  | none => !(cfg.itemTypes.contains "canvas")
  | some _ =>
    match e.itemType with
    | some t => !(cfg.itemTypes.contains t)
    | none => false

/-- The position computation of `onMenuShow` (source lines 162-178):
base position from the viewport coordinates, container offsets and the
configured offsets (with the constant `-55` vertical correction), then each
coordinate is shifted back when the overlay bounding box would run past the
graph size. -/
def computePosition (cfg : MenuConfig) (env : GraphEnv) (e : GEvent) : Int × Int :=
  let width := env.width
  let height := env.height
  let offsetX := cfg.offsetX
  let offsetY := cfg.offsetY
  let graphTop := env.graphTop
  let graphLeft := env.graphLeft
  let x0 := e.viewportX + graphLeft + offsetX
  let y0 := e.viewportY + graphTop + offsetY - 55
  let x := if x0 + env.menuWidth > width then x0 - (env.menuWidth + graphLeft + offsetX) else x0
  let y := if y0 + env.menuHeight > height then y0 - (env.menuHeight + graphTop + offsetY) else y0
  (x, y)

/-- Source lines 205-209: inject `this.asyncMenu` into the overlay (string
as-is, element via `outerHTML`).  The source reaches these lines only with
`asyncMenu` set; the `none` case is unreachable and modelled as a no-op. -/
def injectAsyncMenu (st : MenuState) : MenuState :=
  match st.asyncMenu with
  | some c => { st with innerHTML := c.render }
  | none => st

/-- Source lines 211-231: detach the previous listeners, then attach the
overlay click listener when `handleMenuClick` is configured, then attach
the document-wide outside-click listener and remember it in `handler`.
Fresh listener tokens come from `nextId`. -/
def attachMenuListeners (cfg : MenuConfig) (st : MenuState) : MenuState :=
  let st1 := removeMenuEventListener st
  let st2 :=
    if cfg.hasHandleMenuClick then
      { st1 with
        handleMenuClickWrapper := some st1.nextId
        menuListeners := st1.menuListeners ++ [st1.nextId]
        nextId := st1.nextId + 1 }
    else st1
  { st2 with
    handler := some st2.nextId
    docListeners := st2.docListeners ++ [st2.nextId]
    nextId := st2.nextId + 1 }

/-- Outcome of the synchronous prefix of `onMenuShow`: either the handler
ran to completion, or it suspended at the `await` on source line 199; a
suspension carries the state at the suspension point, the event, and the
content the awaited promise will resolve to. -/
inductive ShowResult where
  | done : MenuState → ShowResult
  | suspended : MenuState → GEvent → Content → ShowResult
  deriving DecidableEq, Repr

/-- The menu state visible at the end of the synchronous prefix. -/
def ShowResult.state : ShowResult → MenuState
  | .done st => st
  | .suspended st _ _ => st

/-- `onMenuShow` (source lines 139-232) up to its only suspension point:
hide the previous menu, run the item-type filter and the `shouldBegin`
predicate, call the content provider, position the overlay and make it
visible, then branch on the content: synchronous content is injected and
the listeners are attached; a promise first shows the loading placeholder,
then either suspends at the `await` of a second provider call (when the
target differs from `currentTarget` or no cached `asyncMenu` exists,
recording the new `currentTarget` first) or — after the line 201 staleness
recheck — injects the cached `asyncMenu` and attaches the listeners. -/
def onMenuShowStart (cfg : MenuConfig) (env : GraphEnv) (e : GEvent) (st0 : MenuState) :
    ShowResult :=
  let st := onMenuHide st0
  if itemFilterRejects cfg e then
    .done (onMenuHide st)
  else if !(cfg.shouldBegin e) then
    .done st
  else
    let st := { st with getContentCalls := st.getContentCalls + 1 }
    let menu := cfg.getContent e
    let p := computePosition cfg env e
    let st := { st with posX := p.1, posY := p.2, visible := true }
    match menu with
    | .sync c => .done (attachMenuListeners cfg { st with innerHTML := c.render })
    | .promise c =>
      let st := { st with innerHTML := cfg.loadingContent.render }
      if e.itemId ≠ st.currentTarget ∨ st.asyncMenu = none then
        .suspended
          { st with
            currentTarget := e.itemId
            getContentCalls := st.getContentCalls + 1
            awaitedCalls := st.awaitedCalls + 1 } e c
      else if e.itemId ≠ st.currentTarget then
        .done st
      else
        .done (attachMenuListeners cfg (injectAsyncMenu st))

/-- The continuation of `onMenuShow` after the `await` on source line 199:
store the resolved value in `asyncMenu`, then — the staleness check on line
201 — return without touching anything else when the event's `itemId` no
longer matches `currentTarget`; otherwise inject `asyncMenu` and attach the
listeners. -/
def onMenuShowResume (cfg : MenuConfig) (e : GEvent) (resolved : Content)
    (st0 : MenuState) : MenuState :=
  let st := { st0 with asyncMenu := some resolved }
  if e.itemId ≠ st.currentTarget then st
  else attachMenuListeners cfg (injectAsyncMenu st)

/-- `destroy` (source lines 256-269): detach the listeners and remove the
overlay from its resolved container.  `container.removeChild` is modelled
by clearing `inContainer`; the source would throw on a second `destroy`,
which no claim exercises. -/
def destroy (st : MenuState) : MenuState :=
  let st1 := removeMenuEventListener st
  { st1 with inContainer := false }

/-- A promise created at a suspension of the show handler and not yet
resolved: the event of the suspended invocation and the value the promise
resolves to. -/
structure PendingResume where
  e : GEvent
  resolved : Content
  deriving DecidableEq, Repr

/-- A whole system state: the menu instance state plus the pending
promise resolutions. -/
structure Sys where
  st : MenuState
  pending : List PendingResume
  deriving DecidableEq, Repr

/-- The system state right after `init`. -/
def initSys : Sys := ⟨initState, []⟩

/-- The operations the event loop can run against a `Menu` instance:
a trigger event dispatched to the show handler, the resolution of the
i-th pending promise, an outside click reaching an attached (and not
absorbed) document handler — which calls `onMenuHide` (source line 227) —
and `destroy`. -/
inductive MenuOp where
  | show : GEvent → MenuOp
  | resolve : Nat → MenuOp
  | outsideClick : MenuOp
  | destroy : MenuOp
  deriving DecidableEq, Repr

/-- One event-loop step. -/
def stepOp (cfg : MenuConfig) (env : GraphEnv) (s : Sys) : MenuOp → Sys
  | .show e =>
    match onMenuShowStart cfg env e s.st with
    | .done st1 => ⟨st1, s.pending⟩
    | .suspended st1 e1 c1 => ⟨st1, s.pending ++ [⟨e1, c1⟩]⟩
  | .resolve i =>
    match s.pending.get? i with
    | some p => ⟨onMenuShowResume cfg p.e p.resolved s.st, s.pending.eraseIdx i⟩
    | none => s
  | .outsideClick => ⟨onMenuHide s.st, s.pending⟩
  | .destroy => ⟨destroy s.st, s.pending⟩

/-- Run a list of operations from a given system state. -/
def runOps (cfg : MenuConfig) (env : GraphEnv) : List MenuOp → Sys → Sys
  | [], s => s
  | op :: ops, s => runOps cfg env ops (stepOp cfg env s op)

/-- Run a list of operations from the post-`init` state. -/
def run (cfg : MenuConfig) (env : GraphEnv) (ops : List MenuOp) : Sys :=
  runOps cfg env ops initSys

/-- The state reached by `onMenuShow` right after passing both filters,
calling the content provider and positioning the overlay (source lines
158-183), before the branch on the content kind. -/
def showPassState (cfg : MenuConfig) (env : GraphEnv) (e : GEvent) (st : MenuState) :
    MenuState :=
  { onMenuHide st with
    getContentCalls := (onMenuHide st).getContentCalls + 1
    posX := (computePosition cfg env e).1
    posY := (computePosition cfg env e).2
    visible := true }

/-- The listener registrations on `document.body` made by this instance:
either none, or exactly the one referenced by the `handler` field. -/
def docOk (st : MenuState) : Prop :=
  st.docListeners = [] ∨ ∃ h, st.docListeners = [h] ∧ st.handler = some h

/-- The click-listener registrations on the overlay node: exactly the one
referenced by `handleMenuClickWrapper` when it is set, none otherwise. -/
def menuOk (st : MenuState) : Prop :=
  match st.handleMenuClickWrapper with
  | some w => st.menuListeners = [w]
  | none => st.menuListeners = []

/-- The listener bookkeeping invariant maintained by every operation. -/
def Inv (st : MenuState) : Prop := docOk st ∧ menuOk st

/-- The markup a filter-passing show leaves in the overlay at the end of its
synchronous prefix: synchronous content as such; for a promise, the cached
value when the target matches and a cached value exists, the loading
placeholder otherwise. -/
def displayedContent (cfg : MenuConfig) (e : GEvent) (st : MenuState) : String :=
  match cfg.getContent e with
  | .sync c => c.render
  | .promise _ =>
    if e.itemId = st.currentTarget then
      match st.asyncMenu with
      | some d => d.render
      | none => cfg.loadingContent.render
    else cfg.loadingContent.render

/-! ### Concrete fixtures -/

/-- A concrete host-graph environment: canvas 500 by 400, container offsets
top 20 and left 10, overlay bounding box 100 by 80. -/
def env0 : GraphEnv := ⟨500, 400, 20, 10, 100, 80⟩

def eNodeA : GEvent := ⟨some "A", some "node", 30, 40⟩

def eNodeB : GEvent := ⟨some "B", some "node", 30, 40⟩

def eEdgeC : GEvent := ⟨some "C", some "edge", 30, 40⟩

def eCanvas : GEvent := ⟨none, none, 30, 40⟩

def eNoType : GEvent := ⟨some "D", none, 30, 40⟩

/-- A configuration whose content provider returns a promise resolving to
markup naming the target item. -/
def cfgA : MenuConfig :=
  { offsetX := 6
    offsetY := 6
    itemTypes := ["node"]
    shouldBegin := fun _ => true
    triggerIsClick := true
    hasHandleMenuClick := false
    loadingContent := .str "LOADING"
    getContent := fun e =>
      .promise (.str (match e.itemId with
        | some i => "CONTENT-" ++ i
        | none => "CONTENT"))
    onHide := fun _ => true }

/-- A configuration with a synchronous content provider and a configured
click handler. -/
def cfgS : MenuConfig :=
  { offsetX := 6
    offsetY := 6
    itemTypes := ["node"]
    shouldBegin := fun _ => true
    triggerIsClick := true
    hasHandleMenuClick := true
    loadingContent := .str "LOADING"
    getContent := fun _ => .sync (.str "MENU")
    onHide := fun _ => true }

/-- A configuration allowing canvas triggers whose display predicate always
refuses. -/
def cfgC3 : MenuConfig :=
  { offsetX := 6
    offsetY := 6
    itemTypes := ["canvas"]
    shouldBegin := fun _ => false
    triggerIsClick := true
    hasHandleMenuClick := false
    loadingContent := .str "LOADING"
    getContent := fun _ => .sync (.str "MENU")
    onHide := fun _ => true }

/-- A state in which an earlier asynchronous show on node A has completed:
the pending target is A and a resolved value is cached. -/
def stCached : MenuState :=
  { initState with currentTarget := some "A", asyncMenu := some (Content.str "OLD") }

/-- A show-handler invocation on event `e` from state `st` passes both
filters and completes the display path within the invocation — reaching the
listener attachment on source lines 211-231 without suspending: the
item-type filter passes, the display predicate accepts, and the content is
either synchronous or a deferred value answered from the cache (target
matching `currentTarget` with a cached `asyncMenu` present, source line
197). -/
def completesDisplay (cfg : MenuConfig) (e : GEvent) (st : MenuState) : Bool :=
  !(itemFilterRejects cfg e) && cfg.shouldBegin e &&
    (match cfg.getContent e with
     | .sync _ => true
     | .promise _ => e.itemId == st.currentTarget && !(st.asyncMenu == none))

/-! ### Basic lemmas about the state transformers -/

/-- Normal form of `removeMenuEventListener`: the wrapper is always cleared,
and the two listener lists lose the referenced token when it is set. -/
theorem removeMEL_eq (st : MenuState) :
    removeMenuEventListener st =
      { st with
        handleMenuClickWrapper := none
        menuListeners :=
          (match st.handleMenuClickWrapper with
           | some w => st.menuListeners.erase w
           | none => st.menuListeners)
        docListeners :=
          (match st.handler with
           | some h => st.docListeners.erase h
           | none => st.docListeners) } := by
  rcases st with ⟨v, ih, px, py, ct, am, w, h, ml, dl, ni, ic, gc, ac, oc⟩
  unfold removeMenuEventListener
  rcases w with _ | w <;> rcases h with _ | h <;> rfl

theorem onMenuHide_eq (st : MenuState) :
    onMenuHide st =
      { st with
        visible := false
        handleMenuClickWrapper := none
        menuListeners :=
          (match st.handleMenuClickWrapper with
           | some w => st.menuListeners.erase w
           | none => st.menuListeners)
        docListeners :=
          (match st.handler with
           | some h => st.docListeners.erase h
           | none => st.docListeners) } := by
  unfold onMenuHide
  rw [removeMEL_eq]

@[simp] theorem removeMEL_visible (st : MenuState) :
    (removeMenuEventListener st).visible = st.visible := by rw [removeMEL_eq]

@[simp] theorem removeMEL_innerHTML (st : MenuState) :
    (removeMenuEventListener st).innerHTML = st.innerHTML := by rw [removeMEL_eq]

@[simp] theorem removeMEL_posX (st : MenuState) :
    (removeMenuEventListener st).posX = st.posX := by rw [removeMEL_eq]

@[simp] theorem removeMEL_posY (st : MenuState) :
    (removeMenuEventListener st).posY = st.posY := by rw [removeMEL_eq]

@[simp] theorem removeMEL_currentTarget (st : MenuState) :
    (removeMenuEventListener st).currentTarget = st.currentTarget := by rw [removeMEL_eq]

@[simp] theorem removeMEL_asyncMenu (st : MenuState) :
    (removeMenuEventListener st).asyncMenu = st.asyncMenu := by rw [removeMEL_eq]

@[simp] theorem removeMEL_handler (st : MenuState) :
    (removeMenuEventListener st).handler = st.handler := by rw [removeMEL_eq]

@[simp] theorem removeMEL_nextId (st : MenuState) :
    (removeMenuEventListener st).nextId = st.nextId := by rw [removeMEL_eq]

@[simp] theorem removeMEL_inContainer (st : MenuState) :
    (removeMenuEventListener st).inContainer = st.inContainer := by rw [removeMEL_eq]

@[simp] theorem removeMEL_getContentCalls (st : MenuState) :
    (removeMenuEventListener st).getContentCalls = st.getContentCalls := by rw [removeMEL_eq]

@[simp] theorem removeMEL_awaitedCalls (st : MenuState) :
    (removeMenuEventListener st).awaitedCalls = st.awaitedCalls := by rw [removeMEL_eq]

@[simp] theorem removeMEL_onHideCbCalls (st : MenuState) :
    (removeMenuEventListener st).onHideCbCalls = st.onHideCbCalls := by rw [removeMEL_eq]

theorem attachMenuListeners_eq (cfg : MenuConfig) (st : MenuState) :
    attachMenuListeners cfg st =
      (let st1 := removeMenuEventListener st
       if cfg.hasHandleMenuClick then
         { st1 with
           handleMenuClickWrapper := some st1.nextId
           menuListeners := st1.menuListeners ++ [st1.nextId]
           handler := some (st1.nextId + 1)
           docListeners := st1.docListeners ++ [st1.nextId + 1]
           nextId := st1.nextId + 2 }
       else
         { st1 with
           handler := some st1.nextId
           docListeners := st1.docListeners ++ [st1.nextId]
           nextId := st1.nextId + 1 }) := by
  unfold attachMenuListeners
  by_cases hc : cfg.hasHandleMenuClick <;> simp [hc]

@[simp] theorem attachMenuListeners_visible (cfg : MenuConfig) (st : MenuState) :
    (attachMenuListeners cfg st).visible = st.visible := by
  rw [attachMenuListeners_eq]
  by_cases hc : cfg.hasHandleMenuClick <;> simp [hc]

@[simp] theorem attachMenuListeners_innerHTML (cfg : MenuConfig) (st : MenuState) :
    (attachMenuListeners cfg st).innerHTML = st.innerHTML := by
  rw [attachMenuListeners_eq]
  by_cases hc : cfg.hasHandleMenuClick <;> simp [hc]

@[simp] theorem attachMenuListeners_posX (cfg : MenuConfig) (st : MenuState) :
    (attachMenuListeners cfg st).posX = st.posX := by
  rw [attachMenuListeners_eq]
  by_cases hc : cfg.hasHandleMenuClick <;> simp [hc]

@[simp] theorem attachMenuListeners_posY (cfg : MenuConfig) (st : MenuState) :
    (attachMenuListeners cfg st).posY = st.posY := by
  rw [attachMenuListeners_eq]
  by_cases hc : cfg.hasHandleMenuClick <;> simp [hc]

@[simp] theorem attachMenuListeners_currentTarget (cfg : MenuConfig) (st : MenuState) :
    (attachMenuListeners cfg st).currentTarget = st.currentTarget := by
  rw [attachMenuListeners_eq]
  by_cases hc : cfg.hasHandleMenuClick <;> simp [hc]

@[simp] theorem attachMenuListeners_asyncMenu (cfg : MenuConfig) (st : MenuState) :
    (attachMenuListeners cfg st).asyncMenu = st.asyncMenu := by
  rw [attachMenuListeners_eq]
  by_cases hc : cfg.hasHandleMenuClick <;> simp [hc]

@[simp] theorem attachMenuListeners_getContentCalls (cfg : MenuConfig) (st : MenuState) :
    (attachMenuListeners cfg st).getContentCalls = st.getContentCalls := by
  rw [attachMenuListeners_eq]
  by_cases hc : cfg.hasHandleMenuClick <;> simp [hc]

@[simp] theorem attachMenuListeners_awaitedCalls (cfg : MenuConfig) (st : MenuState) :
    (attachMenuListeners cfg st).awaitedCalls = st.awaitedCalls := by
  rw [attachMenuListeners_eq]
  by_cases hc : cfg.hasHandleMenuClick <;> simp [hc]

@[simp] theorem attachMenuListeners_onHideCbCalls (cfg : MenuConfig) (st : MenuState) :
    (attachMenuListeners cfg st).onHideCbCalls = st.onHideCbCalls := by
  rw [attachMenuListeners_eq]
  by_cases hc : cfg.hasHandleMenuClick <;> simp [hc]

@[simp] theorem attachMenuListeners_inContainer (cfg : MenuConfig) (st : MenuState) :
    (attachMenuListeners cfg st).inContainer = st.inContainer := by
  rw [attachMenuListeners_eq]
  by_cases hc : cfg.hasHandleMenuClick <;> simp [hc]

theorem injectAsyncMenu_eq (st : MenuState) :
    injectAsyncMenu st =
      { st with innerHTML :=
          (match st.asyncMenu with
           | some c => c.render
           | none => st.innerHTML) } := by
  rcases st with ⟨v, ih, px, py, ct, am, w, h, ml, dl, ni, ic, gc, ac, oc⟩
  unfold injectAsyncMenu
  rcases am with _ | c <;> rfl

@[simp] theorem onMenuHide_visible (st : MenuState) : (onMenuHide st).visible = false := by
  simp [onMenuHide]

@[simp] theorem onMenuHide_innerHTML (st : MenuState) :
    (onMenuHide st).innerHTML = st.innerHTML := by simp [onMenuHide]

@[simp] theorem onMenuHide_posX (st : MenuState) : (onMenuHide st).posX = st.posX := by
  simp [onMenuHide]

@[simp] theorem onMenuHide_posY (st : MenuState) : (onMenuHide st).posY = st.posY := by
  simp [onMenuHide]

@[simp] theorem onMenuHide_currentTarget (st : MenuState) :
    (onMenuHide st).currentTarget = st.currentTarget := by simp [onMenuHide]

@[simp] theorem onMenuHide_asyncMenu (st : MenuState) :
    (onMenuHide st).asyncMenu = st.asyncMenu := by simp [onMenuHide]

@[simp] theorem onMenuHide_handler (st : MenuState) :
    (onMenuHide st).handler = st.handler := by simp [onMenuHide]

@[simp] theorem onMenuHide_nextId (st : MenuState) :
    (onMenuHide st).nextId = st.nextId := by simp [onMenuHide]

@[simp] theorem onMenuHide_inContainer (st : MenuState) :
    (onMenuHide st).inContainer = st.inContainer := by simp [onMenuHide]

@[simp] theorem onMenuHide_getContentCalls (st : MenuState) :
    (onMenuHide st).getContentCalls = st.getContentCalls := by simp [onMenuHide]

@[simp] theorem onMenuHide_awaitedCalls (st : MenuState) :
    (onMenuHide st).awaitedCalls = st.awaitedCalls := by simp [onMenuHide]

@[simp] theorem onMenuHide_onHideCbCalls (st : MenuState) :
    (onMenuHide st).onHideCbCalls = st.onHideCbCalls := by simp [onMenuHide]

@[simp] theorem injectAsyncMenu_visible (st : MenuState) :
    (injectAsyncMenu st).visible = st.visible := by
  rw [injectAsyncMenu_eq]

@[simp] theorem injectAsyncMenu_posX (st : MenuState) :
    (injectAsyncMenu st).posX = st.posX := by rw [injectAsyncMenu_eq]

@[simp] theorem injectAsyncMenu_posY (st : MenuState) :
    (injectAsyncMenu st).posY = st.posY := by rw [injectAsyncMenu_eq]

@[simp] theorem injectAsyncMenu_currentTarget (st : MenuState) :
    (injectAsyncMenu st).currentTarget = st.currentTarget := by rw [injectAsyncMenu_eq]

@[simp] theorem injectAsyncMenu_asyncMenu (st : MenuState) :
    (injectAsyncMenu st).asyncMenu = st.asyncMenu := by rw [injectAsyncMenu_eq]

@[simp] theorem injectAsyncMenu_handleMenuClickWrapper (st : MenuState) :
    (injectAsyncMenu st).handleMenuClickWrapper = st.handleMenuClickWrapper := by
  rw [injectAsyncMenu_eq]

@[simp] theorem injectAsyncMenu_handler (st : MenuState) :
    (injectAsyncMenu st).handler = st.handler := by rw [injectAsyncMenu_eq]

@[simp] theorem injectAsyncMenu_menuListeners (st : MenuState) :
    (injectAsyncMenu st).menuListeners = st.menuListeners := by rw [injectAsyncMenu_eq]

@[simp] theorem injectAsyncMenu_docListeners (st : MenuState) :
    (injectAsyncMenu st).docListeners = st.docListeners := by rw [injectAsyncMenu_eq]

@[simp] theorem injectAsyncMenu_nextId (st : MenuState) :
    (injectAsyncMenu st).nextId = st.nextId := by rw [injectAsyncMenu_eq]

@[simp] theorem injectAsyncMenu_inContainer (st : MenuState) :
    (injectAsyncMenu st).inContainer = st.inContainer := by rw [injectAsyncMenu_eq]

@[simp] theorem injectAsyncMenu_getContentCalls (st : MenuState) :
    (injectAsyncMenu st).getContentCalls = st.getContentCalls := by rw [injectAsyncMenu_eq]

@[simp] theorem injectAsyncMenu_awaitedCalls (st : MenuState) :
    (injectAsyncMenu st).awaitedCalls = st.awaitedCalls := by rw [injectAsyncMenu_eq]

@[simp] theorem injectAsyncMenu_onHideCbCalls (st : MenuState) :
    (injectAsyncMenu st).onHideCbCalls = st.onHideCbCalls := by rw [injectAsyncMenu_eq]

/-! ### The listener bookkeeping invariant -/

theorem inv_initState : Inv initState := by
  constructor
  · exact Or.inl rfl
  · simp [menuOk, initState]

/-- From any state satisfying the invariant, `removeMenuEventListener`
leaves no listener attached at all. -/
theorem removeMEL_clears (st : MenuState) (h : Inv st) :
    (removeMenuEventListener st).menuListeners = [] ∧
      (removeMenuEventListener st).docListeners = [] ∧
      (removeMenuEventListener st).handleMenuClickWrapper = none := by
  obtain ⟨hdoc, hmenu⟩ := h
  rw [removeMEL_eq]
  refine ⟨?_, ?_, rfl⟩
  · unfold menuOk at hmenu
    rcases hw : st.handleMenuClickWrapper with _ | w <;> rw [hw] at hmenu <;> simp [hmenu]
  · rcases hdoc with hnil | ⟨h, hdl, hh⟩
    · rcases hh : st.handler with _ | h <;> simp [hnil]
    · simp [hh, hdl]

theorem inv_removeMEL (st : MenuState) (h : Inv st) :
    Inv (removeMenuEventListener st) := by
  obtain ⟨hm, hd, hw⟩ := removeMEL_clears st h
  exact ⟨Or.inl hd, by simp [menuOk, hw, hm]⟩

theorem inv_onMenuHide (st : MenuState) (h : Inv st) : Inv (onMenuHide st) := by
  unfold onMenuHide
  apply inv_removeMEL
  exact h

/-- From any state satisfying the invariant, attaching the listeners leaves
the invariant intact and exactly one document listener attached. -/
theorem attachMenuListeners_spec (cfg : MenuConfig) (st : MenuState) (h : Inv st) :
    Inv (attachMenuListeners cfg st) ∧
      (attachMenuListeners cfg st).docListeners.length = 1 := by
  obtain ⟨hm, hd, hw⟩ := removeMEL_clears st h
  unfold attachMenuListeners
  by_cases hc : cfg.hasHandleMenuClick <;>
    simp [hc, hm, hd, hw, Inv, docOk, menuOk]

/-! ### Characterization of the synchronous prefix of the show handler -/

theorem showStart_pass_eq (cfg : MenuConfig) (env : GraphEnv) (e : GEvent) (st : MenuState)
    (hf : itemFilterRejects cfg e = false) (hb : cfg.shouldBegin e = true) :
    onMenuShowStart cfg env e st =
      (match cfg.getContent e with
       | .sync c =>
         .done (attachMenuListeners cfg { showPassState cfg env e st with innerHTML := c.render })
       | .promise c =>
         let st1 := { showPassState cfg env e st with innerHTML := cfg.loadingContent.render }
         if e.itemId ≠ st1.currentTarget ∨ st1.asyncMenu = none then
           .suspended
             { st1 with
               currentTarget := e.itemId
               getContentCalls := st1.getContentCalls + 1
               awaitedCalls := st1.awaitedCalls + 1 } e c
         else if e.itemId ≠ st1.currentTarget then .done st1
         else .done (attachMenuListeners cfg (injectAsyncMenu st1))) := by
  unfold onMenuShowStart showPassState
  simp [hf, hb]

@[simp] theorem showPassState_visible (cfg : MenuConfig) (env : GraphEnv) (e : GEvent)
    (st : MenuState) : (showPassState cfg env e st).visible = true := rfl

@[simp] theorem showPassState_currentTarget (cfg : MenuConfig) (env : GraphEnv) (e : GEvent)
    (st : MenuState) : (showPassState cfg env e st).currentTarget = st.currentTarget := by
  simp [showPassState]

@[simp] theorem showPassState_asyncMenu (cfg : MenuConfig) (env : GraphEnv) (e : GEvent)
    (st : MenuState) : (showPassState cfg env e st).asyncMenu = st.asyncMenu := by
  simp [showPassState]

@[simp] theorem showPassState_posX (cfg : MenuConfig) (env : GraphEnv) (e : GEvent)
    (st : MenuState) : (showPassState cfg env e st).posX = (computePosition cfg env e).1 := rfl

@[simp] theorem showPassState_posY (cfg : MenuConfig) (env : GraphEnv) (e : GEvent)
    (st : MenuState) : (showPassState cfg env e st).posY = (computePosition cfg env e).2 := rfl

@[simp] theorem showPassState_getContentCalls (cfg : MenuConfig) (env : GraphEnv) (e : GEvent)
    (st : MenuState) :
    (showPassState cfg env e st).getContentCalls = st.getContentCalls + 1 := by
  simp [showPassState]

@[simp] theorem showPassState_awaitedCalls (cfg : MenuConfig) (env : GraphEnv) (e : GEvent)
    (st : MenuState) : (showPassState cfg env e st).awaitedCalls = st.awaitedCalls := by
  simp [showPassState]

@[simp] theorem showPassState_onHideCbCalls (cfg : MenuConfig) (env : GraphEnv) (e : GEvent)
    (st : MenuState) : (showPassState cfg env e st).onHideCbCalls = st.onHideCbCalls := by
  simp [showPassState]

@[simp] theorem showPassState_inContainer (cfg : MenuConfig) (env : GraphEnv) (e : GEvent)
    (st : MenuState) : (showPassState cfg env e st).inContainer = st.inContainer := by
  simp [showPassState]

theorem showPassState_menuListeners (cfg : MenuConfig) (env : GraphEnv) (e : GEvent)
    (st : MenuState) :
    (showPassState cfg env e st).menuListeners = (onMenuHide st).menuListeners := rfl

theorem showPassState_docListeners (cfg : MenuConfig) (env : GraphEnv) (e : GEvent)
    (st : MenuState) :
    (showPassState cfg env e st).docListeners = (onMenuHide st).docListeners := rfl

theorem showPassState_handleMenuClickWrapper (cfg : MenuConfig) (env : GraphEnv) (e : GEvent)
    (st : MenuState) :
    (showPassState cfg env e st).handleMenuClickWrapper =
      (onMenuHide st).handleMenuClickWrapper := rfl

/-- Visibility after the synchronous prefix of the show handler: the overlay
is visible exactly when the item-type filter passes and `shouldBegin`
returns true. -/
theorem showStart_visible (cfg : MenuConfig) (env : GraphEnv) (e : GEvent) (st : MenuState) :
    ((onMenuShowStart cfg env e st).state).visible
      = (!(itemFilterRejects cfg e) && cfg.shouldBegin e) := by
  by_cases hf : itemFilterRejects cfg e
  · unfold onMenuShowStart
    simp [hf, ShowResult.state]
  · by_cases hb : cfg.shouldBegin e
    · rw [showStart_pass_eq cfg env e st (by simpa using hf) hb]
      rcases hg : cfg.getContent e with c | c
      · simp [hf, hb, ShowResult.state]
      · by_cases hcond :
          e.itemId ≠ ({ showPassState cfg env e st with
            innerHTML := cfg.loadingContent.render } : MenuState).currentTarget ∨
            ({ showPassState cfg env e st with
              innerHTML := cfg.loadingContent.render } : MenuState).asyncMenu = none
        · simp only [hcond, if_pos, ShowResult.state]
          simp [hf, hb]
        · simp only [hcond, if_neg, ShowResult.state]
          rcases hcond2 : decide (e.itemId ≠ ({ showPassState cfg env e st with
              innerHTML := cfg.loadingContent.render } : MenuState).currentTarget) with _ | _
          · simp at hcond2
            simp [hcond2, hf, hb, ShowResult.state]
          · simp at hcond2
            simp [hcond2, hf, hb, ShowResult.state]
    · unfold onMenuShowStart
      simp [hf, hb, ShowResult.state]

/-- The four filter-passing outcomes and the two rejected ones, as closed
forms.  With the filter failing, the handler hides twice and returns. -/
theorem showStart_reject (cfg : MenuConfig) (env : GraphEnv) (e : GEvent) (st : MenuState)
    (hf : itemFilterRejects cfg e = true) :
    onMenuShowStart cfg env e st = .done (onMenuHide (onMenuHide st)) := by
  unfold onMenuShowStart
  simp [hf]

theorem showStart_notBegin (cfg : MenuConfig) (env : GraphEnv) (e : GEvent) (st : MenuState)
    (hf : itemFilterRejects cfg e = false) (hb : cfg.shouldBegin e = false) :
    onMenuShowStart cfg env e st = .done (onMenuHide st) := by
  unfold onMenuShowStart
  simp [hf, hb]

theorem showStart_sync (cfg : MenuConfig) (env : GraphEnv) (e : GEvent) (st : MenuState)
    (c : Content) (hf : itemFilterRejects cfg e = false) (hb : cfg.shouldBegin e = true)
    (hg : cfg.getContent e = .sync c) :
    onMenuShowStart cfg env e st =
      .done (attachMenuListeners cfg
        { showPassState cfg env e st with innerHTML := c.render }) := by
  rw [showStart_pass_eq cfg env e st hf hb, hg]

theorem showStart_promise_fresh (cfg : MenuConfig) (env : GraphEnv) (e : GEvent)
    (st : MenuState) (c : Content)
    (hf : itemFilterRejects cfg e = false) (hb : cfg.shouldBegin e = true)
    (hg : cfg.getContent e = .promise c)
    (hcond : e.itemId ≠ st.currentTarget ∨ st.asyncMenu = none) :
    onMenuShowStart cfg env e st =
      .suspended
        { showPassState cfg env e st with
          innerHTML := cfg.loadingContent.render
          currentTarget := e.itemId
          getContentCalls := st.getContentCalls + 1 + 1
          awaitedCalls := st.awaitedCalls + 1 } e c := by
  rw [showStart_pass_eq cfg env e st hf hb, hg]
  rcases hcond with hct | ham
  · simp [hct]
  · simp [ham]

theorem showStart_promise_cached (cfg : MenuConfig) (env : GraphEnv) (e : GEvent)
    (st : MenuState) (c d : Content)
    (hf : itemFilterRejects cfg e = false) (hb : cfg.shouldBegin e = true)
    (hg : cfg.getContent e = .promise c)
    (hct : e.itemId = st.currentTarget) (ham : st.asyncMenu = some d) :
    onMenuShowStart cfg env e st =
      .done (attachMenuListeners cfg
        { showPassState cfg env e st with innerHTML := d.render }) := by
  rw [showStart_pass_eq cfg env e st hf hb, hg]
  dsimp only
  split_ifs with h1 h2
  · exfalso
    simp [hct, ham] at h1
  · exfalso
    simp [hct] at h2
  · rw [injectAsyncMenu_eq]
    simp [ham]

/-- Closed form of the post-`await` continuation in the stale case (source
line 201 check fails): only the cache is updated. -/
theorem resume_stale (cfg : MenuConfig) (e : GEvent) (r : Content) (st : MenuState)
    (h : e.itemId ≠ st.currentTarget) :
    onMenuShowResume cfg e r st = { st with asyncMenu := some r } := by
  unfold onMenuShowResume
  simp [h]

/-- Closed form of the post-`await` continuation when the target still
matches: inject the just-cached value and attach the listeners. -/
theorem resume_fresh (cfg : MenuConfig) (e : GEvent) (r : Content) (st : MenuState)
    (h : e.itemId = st.currentTarget) :
    onMenuShowResume cfg e r st =
      attachMenuListeners cfg { st with asyncMenu := some r, innerHTML := r.render } := by
  unfold onMenuShowResume
  have : injectAsyncMenu ({ st with asyncMenu := some r }) =
      { st with asyncMenu := some r, innerHTML := r.render } := by
    rw [injectAsyncMenu_eq]
  simp [h, this]

/-! ### Invariant preservation -/

theorem inv_of_fields {st st2 : MenuState} (h : Inv st)
    (h1 : st2.docListeners = st.docListeners) (h2 : st2.handler = st.handler)
    (h3 : st2.menuListeners = st.menuListeners)
    (h4 : st2.handleMenuClickWrapper = st.handleMenuClickWrapper) : Inv st2 := by
  obtain ⟨hd, hm⟩ := h
  constructor
  · unfold docOk at hd ⊢
    rw [h1, h2]
    exact hd
  · unfold menuOk at hm ⊢
    rw [h3, h4]
    exact hm

theorem inv_showPassState (cfg : MenuConfig) (env : GraphEnv) (e : GEvent) (st : MenuState)
    (h : Inv st) : Inv (showPassState cfg env e st) :=
  inv_of_fields (inv_onMenuHide st h) rfl rfl rfl rfl

theorem inv_showStart (cfg : MenuConfig) (env : GraphEnv) (e : GEvent) (st : MenuState)
    (h : Inv st) : Inv ((onMenuShowStart cfg env e st).state) := by
  by_cases hf : itemFilterRejects cfg e
  · rw [showStart_reject cfg env e st hf]
    exact inv_onMenuHide _ (inv_onMenuHide _ h)
  · rw [Bool.not_eq_true] at hf
    by_cases hb : cfg.shouldBegin e
    · rcases hg : cfg.getContent e with c | c
      · rw [showStart_sync cfg env e st c hf hb hg]
        refine (attachMenuListeners_spec cfg _ ?_).1
        exact inv_of_fields (inv_showPassState cfg env e st h) rfl rfl rfl rfl
      · rcases ham : st.asyncMenu with _ | d
        · rw [showStart_promise_fresh cfg env e st c hf hb hg (Or.inr ham)]
          exact inv_of_fields (inv_showPassState cfg env e st h) rfl rfl rfl rfl
        · by_cases hct : e.itemId = st.currentTarget
          · rw [showStart_promise_cached cfg env e st c d hf hb hg hct ham]
            refine (attachMenuListeners_spec cfg _ ?_).1
            exact inv_of_fields (inv_showPassState cfg env e st h) rfl rfl rfl rfl
          · rw [showStart_promise_fresh cfg env e st c hf hb hg (Or.inl hct)]
            exact inv_of_fields (inv_showPassState cfg env e st h) rfl rfl rfl rfl
    · rw [Bool.not_eq_true] at hb
      rw [showStart_notBegin cfg env e st hf hb]
      exact inv_onMenuHide _ h

theorem inv_resume (cfg : MenuConfig) (e : GEvent) (r : Content) (st : MenuState)
    (h : Inv st) : Inv (onMenuShowResume cfg e r st) := by
  by_cases hct : e.itemId = st.currentTarget
  · rw [resume_fresh cfg e r st hct]
    refine (attachMenuListeners_spec cfg _ ?_).1
    exact inv_of_fields h rfl rfl rfl rfl
  · rw [resume_stale cfg e r st hct]
    exact inv_of_fields h rfl rfl rfl rfl

theorem inv_destroy (st : MenuState) (h : Inv st) : Inv (destroy st) :=
  inv_of_fields (inv_removeMEL st h) rfl rfl rfl rfl

theorem stepOp_resolve_eq (cfg : MenuConfig) (env : GraphEnv) (s : Sys) (i : Nat) :
    stepOp cfg env s (.resolve i) =
      (match s.pending.get? i with
       | some p => ⟨onMenuShowResume cfg p.e p.resolved s.st, s.pending.eraseIdx i⟩
       | none => s) := rfl

theorem stepOp_outsideClick_eq (cfg : MenuConfig) (env : GraphEnv) (s : Sys) :
    stepOp cfg env s .outsideClick = ⟨onMenuHide s.st, s.pending⟩ := rfl

theorem stepOp_destroy_eq (cfg : MenuConfig) (env : GraphEnv) (s : Sys) :
    stepOp cfg env s .destroy = ⟨destroy s.st, s.pending⟩ := rfl

theorem stepOp_show_st (cfg : MenuConfig) (env : GraphEnv) (s : Sys) (e : GEvent) :
    (stepOp cfg env s (.show e)).st = (onMenuShowStart cfg env e s.st).state := by
  unfold stepOp
  rcases h : onMenuShowStart cfg env e s.st with st1 | ⟨st1, e1, c1⟩ <;>
    simp [h, ShowResult.state]

theorem inv_stepOp (cfg : MenuConfig) (env : GraphEnv) (s : Sys) (op : MenuOp)
    (h : Inv s.st) : Inv (stepOp cfg env s op).st := by
  rcases op with e | i | _ | _
  · rw [stepOp_show_st]
    exact inv_showStart cfg env e s.st h
  · rw [stepOp_resolve_eq]
    rcases hp : s.pending.get? i with _ | p
    · exact h
    · exact inv_resume cfg p.e p.resolved s.st h
  · rw [stepOp_outsideClick_eq]
    exact inv_onMenuHide s.st h
  · rw [stepOp_destroy_eq]
    exact inv_destroy s.st h

theorem runOps_append (cfg : MenuConfig) (env : GraphEnv) (l1 l2 : List MenuOp) (s : Sys) :
    runOps cfg env (l1 ++ l2) s = runOps cfg env l2 (runOps cfg env l1 s) := by
  induction l1 generalizing s with
  | nil => rfl
  | cons op ops ih => simp [runOps, ih]

theorem inv_runOps (cfg : MenuConfig) (env : GraphEnv) (ops : List MenuOp) (s : Sys)
    (h : Inv s.st) : Inv (runOps cfg env ops s).st := by
  induction ops generalizing s with
  | nil => exact h
  | cons op ops ih => exact ih _ (inv_stepOp cfg env s op h)

theorem inv_run (cfg : MenuConfig) (env : GraphEnv) (ops : List MenuOp) :
    Inv (run cfg env ops).st :=
  inv_runOps cfg env ops initSys inv_initState

/-! ### Content, position and counter characterizations -/

@[simp] theorem ShowResult.state_done (st : MenuState) : (ShowResult.done st).state = st := rfl

@[simp] theorem ShowResult.state_suspended (st : MenuState) (e : GEvent) (c : Content) :
    (ShowResult.suspended st e c).state = st := rfl

theorem showStart_innerHTML (cfg : MenuConfig) (env : GraphEnv) (e : GEvent) (st : MenuState)
    (hf : itemFilterRejects cfg e = false) (hb : cfg.shouldBegin e = true) :
    ((onMenuShowStart cfg env e st).state).innerHTML = displayedContent cfg e st := by
  rcases hg : cfg.getContent e with c | c
  · rw [showStart_sync cfg env e st c hf hb hg]
    simp [displayedContent, hg]
  · rcases ham : st.asyncMenu with _ | d
    · rw [showStart_promise_fresh cfg env e st c hf hb hg (Or.inr ham)]
      simp [displayedContent, hg, ham]
    · by_cases hct : e.itemId = st.currentTarget
      · rw [showStart_promise_cached cfg env e st c d hf hb hg hct ham]
        simp [displayedContent, hg, ham, hct]
      · rw [showStart_promise_fresh cfg env e st c hf hb hg (Or.inl hct)]
        simp [displayedContent, hg, ham, hct]

theorem showStart_pos (cfg : MenuConfig) (env : GraphEnv) (e : GEvent) (st : MenuState)
    (hf : itemFilterRejects cfg e = false) (hb : cfg.shouldBegin e = true) :
    ((onMenuShowStart cfg env e st).state).posX = (computePosition cfg env e).1 ∧
      ((onMenuShowStart cfg env e st).state).posY = (computePosition cfg env e).2 := by
  rcases hg : cfg.getContent e with c | c
  · rw [showStart_sync cfg env e st c hf hb hg]
    constructor <;> simp
  · rcases ham : st.asyncMenu with _ | d
    · rw [showStart_promise_fresh cfg env e st c hf hb hg (Or.inr ham)]
      constructor <;> simp
    · by_cases hct : e.itemId = st.currentTarget
      · rw [showStart_promise_cached cfg env e st c d hf hb hg hct ham]
        constructor <;> simp
      · rw [showStart_promise_fresh cfg env e st c hf hb hg (Or.inl hct)]
        constructor <;> simp

theorem showStart_onHideCbCalls (cfg : MenuConfig) (env : GraphEnv) (e : GEvent)
    (st : MenuState) :
    ((onMenuShowStart cfg env e st).state).onHideCbCalls = st.onHideCbCalls := by
  by_cases hf : itemFilterRejects cfg e
  · rw [showStart_reject cfg env e st hf]
    simp
  · rw [Bool.not_eq_true] at hf
    by_cases hb : cfg.shouldBegin e
    · rcases hg : cfg.getContent e with c | c
      · rw [showStart_sync cfg env e st c hf hb hg]
        simp
      · rcases ham : st.asyncMenu with _ | d
        · rw [showStart_promise_fresh cfg env e st c hf hb hg (Or.inr ham)]
          simp
        · by_cases hct : e.itemId = st.currentTarget
          · rw [showStart_promise_cached cfg env e st c d hf hb hg hct ham]
            simp
          · rw [showStart_promise_fresh cfg env e st c hf hb hg (Or.inl hct)]
            simp
    · rw [Bool.not_eq_true] at hb
      rw [showStart_notBegin cfg env e st hf hb]
      simp

theorem resume_onHideCbCalls (cfg : MenuConfig) (e : GEvent) (r : Content) (st : MenuState) :
    (onMenuShowResume cfg e r st).onHideCbCalls = st.onHideCbCalls := by
  by_cases hct : e.itemId = st.currentTarget
  · rw [resume_fresh cfg e r st hct]
    simp
  · rw [resume_stale cfg e r st hct]

theorem destroy_inContainer (st : MenuState) : (destroy st).inContainer = false := rfl

theorem destroy_menuListeners (st : MenuState) :
    (destroy st).menuListeners = (removeMenuEventListener st).menuListeners := rfl

theorem destroy_docListeners (st : MenuState) :
    (destroy st).docListeners = (removeMenuEventListener st).docListeners := rfl

theorem destroy_onHideCbCalls (st : MenuState) :
    (destroy st).onHideCbCalls = st.onHideCbCalls := by
  unfold destroy
  simp

theorem stepOp_onHideCbCalls (cfg : MenuConfig) (env : GraphEnv) (s : Sys) (op : MenuOp) :
    (stepOp cfg env s op).st.onHideCbCalls = s.st.onHideCbCalls := by
  rcases op with e | i | _ | _
  · rw [stepOp_show_st]
    exact showStart_onHideCbCalls cfg env e s.st
  · rw [stepOp_resolve_eq]
    rcases hp : s.pending.get? i with _ | p
    · rfl
    · exact resume_onHideCbCalls cfg p.e p.resolved s.st
  · rw [stepOp_outsideClick_eq]
    simp
  · rw [stepOp_destroy_eq]
    exact destroy_onHideCbCalls s.st

theorem runOps_onHideCbCalls (cfg : MenuConfig) (env : GraphEnv) (ops : List MenuOp) (s : Sys) :
    (runOps cfg env ops s).st.onHideCbCalls = s.st.onHideCbCalls := by
  induction ops generalizing s with
  | nil => rfl
  | cons op ops ih =>
    have h1 : runOps cfg env (op :: ops) s = runOps cfg env ops (stepOp cfg env s op) := rfl
    rw [h1, ih]
    exact stepOp_onHideCbCalls cfg env s op

/-- Shape of the item-type filter when the event has both identifier and
type. -/
theorem itemFilterRejects_of_itemType (cfg : MenuConfig) (e : GEvent) (i t : String)
    (hid : e.itemId = some i) (hty : e.itemType = some t) :
    itemFilterRejects cfg e = !(cfg.itemTypes.contains t) := by
  unfold itemFilterRejects
  rw [hid, hty]

theorem itemFilterRejects_of_noItem (cfg : MenuConfig) (e : GEvent)
    (hid : e.itemId = none) :
    itemFilterRejects cfg e = !(cfg.itemTypes.contains "canvas") := by
  unfold itemFilterRejects
  rw [hid]

theorem itemFilterRejects_of_noType (cfg : MenuConfig) (e : GEvent) (i : String)
    (hid : e.itemId = some i) (hty : e.itemType = none) :
    itemFilterRejects cfg e = false := by
  unfold itemFilterRejects
  rw [hid, hty]

/-- A show-handler invocation that completes the display path — with
synchronous content or with a cached deferred value — runs the listener
attachment and so ends with exactly one document listener. -/
theorem completesDisplay_doc_length (cfg : MenuConfig) (env : GraphEnv) (e : GEvent)
    (st : MenuState) (h : completesDisplay cfg e st = true) (hInv : Inv st) :
    ((onMenuShowStart cfg env e st).state).docListeners.length = 1 := by
  unfold completesDisplay at h
  rcases hg : cfg.getContent e with c | c
  · rw [hg] at h
    simp only [Bool.and_eq_true, Bool.not_eq_true'] at h
    obtain ⟨⟨hf, hb⟩, -⟩ := h
    rw [showStart_sync cfg env e st c hf hb hg, ShowResult.state_done]
    refine (attachMenuListeners_spec cfg _ ?_).2
    exact inv_of_fields (inv_showPassState cfg env e st hInv) rfl rfl rfl rfl
  · rw [hg] at h
    simp only [Bool.and_eq_true, Bool.not_eq_true', beq_iff_eq, beq_eq_false_iff_ne,
      ne_eq] at h
    obtain ⟨⟨hf, hb⟩, hct, ham⟩ := h
    rcases hd : st.asyncMenu with _ | d
    · exact absurd hd ham
    · rw [showStart_promise_cached cfg env e st c d hf hb hg hct hd, ShowResult.state_done]
      refine (attachMenuListeners_spec cfg _ ?_).2
      exact inv_of_fields (inv_showPassState cfg env e st hInv) rfl rfl rfl rfl

/-! ### The claims -/

/-- C1: the claim states that when the deferred content value resolves after
the current target item has changed, the resolved content is never injected
into the overlay.  The code stores the resolved value into the `asyncMenu`
cache (source line 199) before the staleness check (source line 201), so a
later trigger on the then-current item finds the stale value in the cache
and injects it.  This theorem evaluates the code on the failing trace:
trigger on node A, trigger on node B, resolve the B-promise, resolve the
A-promise (stale: the target is B by then, and the overlay is not touched),
then trigger on node B again — the overlay now shows the content that was
resolved for A. -/
theorem stale_async_result_eventually_injected :
    (run cfgA env0 [MenuOp.show eNodeA, MenuOp.show eNodeB]).pending.get? 0
        = some ⟨eNodeA, Content.str "CONTENT-A"⟩ ∧
      (run cfgA env0 [MenuOp.show eNodeA, MenuOp.show eNodeB,
        MenuOp.resolve 1]).st.currentTarget = some "B" ∧
      eNodeA.itemId = some "A" ∧
      (run cfgA env0 [MenuOp.show eNodeA, MenuOp.show eNodeB, MenuOp.resolve 1,
        MenuOp.resolve 0]).st.innerHTML = "CONTENT-B" ∧
      (run cfgA env0 [MenuOp.show eNodeA, MenuOp.show eNodeB, MenuOp.resolve 1,
        MenuOp.resolve 0, MenuOp.show eNodeB]).st.innerHTML = "CONTENT-A" ∧
      (run cfgA env0 [MenuOp.show eNodeA, MenuOp.show eNodeB, MenuOp.resolve 1,
        MenuOp.resolve 0, MenuOp.show eNodeB]).st.visible = true := by
  decide

/-- C2: for every trigger event carrying an item identifier and an item type,
the overlay ends up visible exactly when the type is a member of the
configured allowed types and the display predicate accepts the event; and
when it does, the overlay holds the content computed for the event. -/
theorem menu_displays_iff_allowed_type_and_predicate
    (cfg : MenuConfig) (env : GraphEnv) (e : GEvent) (st : MenuState) (i t : String)
    (hid : e.itemId = some i) (hty : e.itemType = some t) :
    (((onMenuShowStart cfg env e st).state).visible = true ↔
      cfg.itemTypes.contains t = true ∧ cfg.shouldBegin e = true) ∧
    (cfg.itemTypes.contains t = true → cfg.shouldBegin e = true →
      ((onMenuShowStart cfg env e st).state).innerHTML = displayedContent cfg e st) := by
  have hfr := itemFilterRejects_of_itemType cfg e i t hid hty
  constructor
  · rw [showStart_visible, hfr]
    cases hco : cfg.itemTypes.contains t <;> cases hsb : cfg.shouldBegin e <;> simp
  · intro hco hsb
    refine showStart_innerHTML cfg env e st ?_ hsb
    rw [hfr, hco]
    rfl

theorem menu_displays_iff_allowed_type_and_predicate_witness :
    (((onMenuShowStart cfgS env0 eNodeA initState).state).visible = true ↔
      cfgS.itemTypes.contains "node" = true ∧ cfgS.shouldBegin eNodeA = true) ∧
    (cfgS.itemTypes.contains "node" = true → cfgS.shouldBegin eNodeA = true →
      ((onMenuShowStart cfgS env0 eNodeA initState).state).innerHTML =
        displayedContent cfgS eNodeA initState) :=
  menu_displays_iff_allowed_type_and_predicate cfgS env0 eNodeA initState "A" "node" rfl rfl

/-- C3 counterexample: the claim says that for an event with no item
identifier the menu displays if and only if the string canvas is among the
allowed types; but with the canvas type allowed and a display predicate
returning false, the menu does not display. -/
theorem canvas_allowed_but_predicate_false_not_displayed :
    cfgC3.itemTypes.contains "canvas" = true ∧
      eCanvas.itemId = none ∧
      ((onMenuShowStart cfgC3 env0 eCanvas initState).state).visible = false := by
  decide

/-- C3 amended: for an event with no item identifier the menu displays if
and only if the string canvas is among the allowed types AND the display
predicate accepts the event. -/
theorem canvas_display_iff_allowed_and_predicate
    (cfg : MenuConfig) (env : GraphEnv) (e : GEvent) (st : MenuState)
    (hid : e.itemId = none) :
    ((onMenuShowStart cfg env e st).state).visible = true ↔
      cfg.itemTypes.contains "canvas" = true ∧ cfg.shouldBegin e = true := by
  have hfr := itemFilterRejects_of_noItem cfg e hid
  rw [showStart_visible, hfr]
  cases hco : cfg.itemTypes.contains "canvas" <;> cases hsb : cfg.shouldBegin e <;> simp

theorem canvas_display_iff_allowed_and_predicate_witness :
    ((onMenuShowStart cfgC3 env0 eCanvas initState).state).visible = true ↔
      cfgC3.itemTypes.contains "canvas" = true ∧ cfgC3.shouldBegin eCanvas = true :=
  canvas_display_iff_allowed_and_predicate cfgC3 env0 eCanvas initState rfl

/-- C4 counterexample: the claim says that on a repeat deferred show for the
same target with a cached resolved result the content provider is invoked
only once across the two invocations.  On the code, the provider is called
unconditionally at the start of every passing show (source line 160) and a
second time at the awaited call (source line 199) of a fresh show: the first
show on node A makes two calls, and the repeat show after resolution makes a
third, so the count across the two invocations is three, not one. -/
theorem repeat_async_show_provider_called_thrice :
    (run cfgA env0 [MenuOp.show eNodeA]).st.getContentCalls = 2 ∧
      (run cfgA env0 [MenuOp.show eNodeA, MenuOp.resolve 0]).st.getContentCalls = 2 ∧
      (run cfgA env0 [MenuOp.show eNodeA, MenuOp.resolve 0,
        MenuOp.show eNodeA]).st.getContentCalls = 3 ∧
      (run cfgA env0 [MenuOp.show eNodeA, MenuOp.resolve 0,
        MenuOp.show eNodeA]).st.awaitedCalls = 1 := by
  decide

/-- C4 amended: on a repeat deferred show for the same target with a cached
resolved result, the provider is invoked exactly once during that invocation
(the unconditional initial call) and no further awaited provider call is
made; the cached result is injected into the overlay. -/
theorem cached_repeat_show_single_call
    (cfg : MenuConfig) (env : GraphEnv) (e : GEvent) (st : MenuState) (c d : Content)
    (hg : cfg.getContent e = .promise c) (hf : itemFilterRejects cfg e = false)
    (hb : cfg.shouldBegin e = true) (hct : e.itemId = st.currentTarget)
    (ham : st.asyncMenu = some d) :
    ∃ st1, onMenuShowStart cfg env e st = .done st1 ∧
      st1.getContentCalls = st.getContentCalls + 1 ∧
      st1.awaitedCalls = st.awaitedCalls ∧
      st1.innerHTML = d.render := by
  refine ⟨_, showStart_promise_cached cfg env e st c d hf hb hg hct ham, ?_, ?_, ?_⟩ <;> simp

theorem cached_repeat_show_single_call_witness :
    ∃ st1, onMenuShowStart cfgA env0 eNodeA stCached = .done st1 ∧
      st1.getContentCalls = stCached.getContentCalls + 1 ∧
      st1.awaitedCalls = stCached.awaitedCalls ∧
      st1.innerHTML = (Content.str "OLD").render :=
  cached_repeat_show_single_call cfgA env0 eNodeA stCached
    (Content.str "CONTENT-A") (Content.str "OLD") rfl (by decide) rfl rfl rfl

/-- C5: for every show that passes both filters, the overlay position is the
base position x equal to viewportX plus container left offset plus offsetX
and y equal to viewportY plus container top offset plus offsetY minus 55,
each clamped: when x plus the overlay width exceeds the graph width, x is
decreased by overlay width plus container left offset plus offsetX, and when
y plus the overlay height exceeds the graph height, y is decreased by
overlay height plus container top offset plus offsetY; otherwise they are
unchanged. -/
theorem show_position_formula (cfg : MenuConfig) (env : GraphEnv) (e : GEvent) (st : MenuState)
    (hf : itemFilterRejects cfg e = false) (hb : cfg.shouldBegin e = true) :
    ((onMenuShowStart cfg env e st).state).posX =
      (if e.viewportX + env.graphLeft + cfg.offsetX + env.menuWidth > env.width
       then e.viewportX + env.graphLeft + cfg.offsetX -
         (env.menuWidth + env.graphLeft + cfg.offsetX)
       else e.viewportX + env.graphLeft + cfg.offsetX) ∧
    ((onMenuShowStart cfg env e st).state).posY =
      (if e.viewportY + env.graphTop + cfg.offsetY - 55 + env.menuHeight > env.height
       then e.viewportY + env.graphTop + cfg.offsetY - 55 -
         (env.menuHeight + env.graphTop + cfg.offsetY)
       else e.viewportY + env.graphTop + cfg.offsetY - 55) := by
  obtain ⟨h1, h2⟩ := showStart_pos cfg env e st hf hb
  rw [h1, h2]
  constructor <;> simp [computePosition]

theorem show_position_formula_witness :
    ((onMenuShowStart cfgS env0 eNodeA initState).state).posX =
      (if eNodeA.viewportX + env0.graphLeft + cfgS.offsetX + env0.menuWidth > env0.width
       then eNodeA.viewportX + env0.graphLeft + cfgS.offsetX -
         (env0.menuWidth + env0.graphLeft + cfgS.offsetX)
       else eNodeA.viewportX + env0.graphLeft + cfgS.offsetX) ∧
    ((onMenuShowStart cfgS env0 eNodeA initState).state).posY =
      (if eNodeA.viewportY + env0.graphTop + cfgS.offsetY - 55 + env0.menuHeight > env0.height
       then eNodeA.viewportY + env0.graphTop + cfgS.offsetY - 55 -
         (env0.menuHeight + env0.graphTop + cfgS.offsetY)
       else eNodeA.viewportY + env0.graphTop + cfgS.offsetY - 55) :=
  show_position_formula cfgS env0 eNodeA initState (by decide) rfl

/-- C6 counterexample: the claim asserts in particular that after ANY two
successive show-handler invocations exactly one outside-click listener is
attached.  When the second invocation is rejected by the item-type filter,
the initial hide of that invocation removes the listener attached by the
first one, leaving zero. -/
theorem second_show_aborted_leaves_no_listener :
    (run cfgS env0 [MenuOp.show eNodeA]).st.docListeners.length = 1 ∧
      (run cfgS env0 [MenuOp.show eNodeA, MenuOp.show eEdgeC]).st.docListeners.length = 0 := by
  decide

/-- C6 amended: for every configuration and environment, at every point of
any execution at most one document-wide outside-click listener attached by
the instance is active; and after any two successive show-handler
invocations that both pass the filters and complete the display path
(synchronous content, or a deferred value answered from the cache), exactly
one such listener is attached. -/
theorem at_most_one_doc_listener (cfg : MenuConfig) (env : GraphEnv) :
    (∀ ops : List MenuOp, (run cfg env ops).st.docListeners.length ≤ 1) ∧
      (∀ (ops : List MenuOp) (e1 e2 : GEvent),
        completesDisplay cfg e1 (run cfg env ops).st = true →
        completesDisplay cfg e2 (run cfg env (ops ++ [MenuOp.show e1])).st = true →
        (run cfg env (ops ++ [MenuOp.show e1, MenuOp.show e2])).st.docListeners.length = 1) := by
  constructor
  · intro ops
    rcases (inv_run cfg env ops).1 with h0 | ⟨h, hdl, hh⟩
    · rw [h0]
      simp
    · rw [hdl]
      simp
  · intro ops e1 e2 hc1 hc2
    have hsplit : run cfg env (ops ++ [MenuOp.show e1, MenuOp.show e2])
        = stepOp cfg env (run cfg env (ops ++ [MenuOp.show e1])) (MenuOp.show e2) := by
      simp only [run, runOps_append]
      rfl
    rw [hsplit, stepOp_show_st]
    exact completesDisplay_doc_length cfg env e2 _ hc2
      (inv_run cfg env (ops ++ [MenuOp.show e1]))

theorem at_most_one_doc_listener_witness :
    (∀ ops2 : List MenuOp, (run cfgS env0 ops2).st.docListeners.length ≤ 1) ∧
      (run cfgS env0 ([] ++ [MenuOp.show eNodeA, MenuOp.show eNodeA])).st.docListeners.length
        = 1 :=
  ⟨(at_most_one_doc_listener cfgS env0).1,
    (at_most_one_doc_listener cfgS env0).2 [] eNodeA eNodeA (by decide) (by decide)⟩

/-- C7: after `destroy` the overlay has been removed from its container and
neither the overlay click listener nor the document-wide outside-click
listener remains attached, whatever happened before. -/
theorem destroy_removes_overlay_and_listeners
    (cfg : MenuConfig) (env : GraphEnv) (ops : List MenuOp) :
    (run cfg env (ops ++ [MenuOp.destroy])).st.inContainer = false ∧
      (run cfg env (ops ++ [MenuOp.destroy])).st.menuListeners = [] ∧
      (run cfg env (ops ++ [MenuOp.destroy])).st.docListeners = [] := by
  have hsplit : run cfg env (ops ++ [MenuOp.destroy])
      = stepOp cfg env (run cfg env ops) MenuOp.destroy := by
    simp only [run, runOps_append]
    rfl
  obtain ⟨hm, hd, hw⟩ := removeMEL_clears (run cfg env ops).st (inv_run cfg env ops)
  rw [hsplit, stepOp_destroy_eq]
  refine ⟨destroy_inContainer _, ?_, ?_⟩
  · show (destroy (run cfg env ops).st).menuListeners = []
    rw [destroy_menuListeners]
    exact hm
  · show (destroy (run cfg env ops).st).docListeners = []
    rw [destroy_docListeners]
    exact hd

/-- C8: for a trigger event that carries an item identifier but no item
type, the item-type filter never rejects, so the menu displays exactly when
the display predicate accepts the event, whatever the allowed types are. -/
theorem itemId_without_type_bypasses_type_filter
    (cfg : MenuConfig) (env : GraphEnv) (e : GEvent) (st : MenuState) (i : String)
    (hid : e.itemId = some i) (hty : e.itemType = none) :
    ((onMenuShowStart cfg env e st).state).visible = cfg.shouldBegin e := by
  have hfr := itemFilterRejects_of_noType cfg e i hid hty
  rw [showStart_visible, hfr]
  simp

theorem itemId_without_type_bypasses_type_filter_witness :
    ((onMenuShowStart cfgS env0 eNoType initState).state).visible = cfgS.shouldBegin eNoType :=
  itemId_without_type_bypasses_type_filter cfgS env0 eNoType initState "D" rfl rfl

/-- C9: no operation of the menu instance ever calls the configured
`onHide` callback: the counter of such calls stays zero over every
execution. -/
theorem onHide_callback_never_called (cfg : MenuConfig) (env : GraphEnv) (ops : List MenuOp) :
    (run cfg env ops).st.onHideCbCalls = 0 := by
  have h := runOps_onHideCbCalls cfg env ops initSys
  simpa [run, initSys, initState] using h

/-- C10 counterexample: the claim asserts that an invocation whose deferred
result is discarded as stale leaves the overlay visible showing the loading
placeholder.  In the trace: show node A (suspends), show node B (suspends),
resolve the B-promise (injects B-content), outside click (hides the
overlay), resolve the A-promise (stale, discarded) — after the stale
discard the overlay is hidden and holds the B-content, not the loading
placeholder. -/
theorem stale_discard_overlay_not_loading :
    (run cfgA env0 [MenuOp.show eNodeA, MenuOp.show eNodeB, MenuOp.resolve 1,
        MenuOp.outsideClick]).st.currentTarget = some "B" ∧
      eNodeA.itemId = some "A" ∧
      (run cfgA env0 [MenuOp.show eNodeA, MenuOp.show eNodeB, MenuOp.resolve 1,
        MenuOp.outsideClick, MenuOp.resolve 0]).st.visible = false ∧
      (run cfgA env0 [MenuOp.show eNodeA, MenuOp.show eNodeB, MenuOp.resolve 1,
        MenuOp.outsideClick, MenuOp.resolve 0]).st.innerHTML = "CONTENT-B" ∧
      cfgA.loadingContent.render = "LOADING" := by
  decide

/-- C10 amended: an invocation whose deferred result is discarded as stale
attaches no overlay click listener and no document-wide outside-click
listener, and changes nothing besides the `asyncMenu` cache: the overlay
visibility, content, position and the listener registrations are exactly
those found at resolution time. -/
theorem stale_resume_changes_only_cache (cfg : MenuConfig) (e : GEvent) (r : Content)
    (st : MenuState) (h : e.itemId ≠ st.currentTarget) :
    onMenuShowResume cfg e r st = { st with asyncMenu := some r } :=
  resume_stale cfg e r st h

theorem stale_resume_changes_only_cache_witness :
    onMenuShowResume cfgA eNodeA (Content.str "X") initState
      = { initState with asyncMenu := some (Content.str "X") } :=
  stale_resume_changes_only_cache cfgA eNodeA (Content.str "X") initState (by decide)

end G6
